import Mathlib

/-!
Verification development for the Quizler backend session gateway
(`src/backend/src/session.rs`).  The session actor, its message protocol
and its websocket stream handler are embedded shallowly; the JSON wire
form of the tagged message enums is modelled over a JSON syntax tree.
Types that live in modules outside the available sources (`game.rs`,
`error.rs`) are modelled from the specification and marked as such.
-/

/-- A JSON value, the target of `serde_json` encoding.  Objects keep their
fields as an ordered association list, matching the order in which the
serializer emits them. -/
inductive Json where
  | null : Json
  | bool (b : Bool) : Json
  | num (n : Nat) : Json
  | str (s : String) : Json
  | arr (items : List Json) : Json
  | obj (fields : List (String × Json)) : Json

/-- Look up the first field with the given key in a JSON object's field
list; models `serde`'s field access (later duplicates are ignored). -/
def getField : List (String × Json) → String → Option Json
  | [], _ => none
  | (k, v) :: rest, key => if k = key then some v else getField rest key

/-- Decimal digit to its character, for the textual form of numeric map
keys (`serde_json` stringifies integer map keys in decimal); offsets the
digit into the ASCII digit range. -/
def digitChar (d : Nat) : Char :=
  Char.ofNat (48 + d % 10)

/-- Character back to its decimal digit value, `none` outside the ASCII
digit range. -/
def digitVal (c : Char) : Option Nat :=
  if c.toNat < 48 ∨ 57 < c.toNat then none
  else some (c.toNat - 48)

/-- Most-significant-first decimal digit expansion, accumulator style. -/
def natToKeyAux (n : Nat) (acc : List Char) : List Char :=
  if h : n < 10 then digitChar n :: acc
  else natToKeyAux (n / 10) (digitChar (n % 10) :: acc)
termination_by n
decreasing_by exact Nat.div_lt_self (by omega) (by omega)

/-- Decimal rendering of a natural number map key. -/
def natToKey (n : Nat) : String :=
  String.mk (natToKeyAux n [])

/-- Fold decimal digits back into a number; fails on any non-digit. -/
def keyToNatAux : List Char → Nat → Option Nat
  | [], v => some v
  | c :: cs, v =>
    match digitVal c with
    | some d => keyToNatAux cs (v * 10 + d)
    | none => none

/-- Parse a decimal map key; the empty string is rejected. -/
def keyToNat? (s : String) : Option Nat :=
  match s.data with
  | [] => none
  | c :: cs => keyToNatAux (c :: cs) 0

/-- Number of decimal digits produced by `natToKeyAux`. -/
def numDigits (n : Nat) : Nat :=
  if h : n < 10 then 1
  else numDigits (n / 10) + 1
termination_by n
decreasing_by exact Nat.div_lt_self (by omega) (by omega)

theorem digitVal_digitChar (d : Nat) (h : d < 10) :
    digitVal (digitChar d) = some d := by
  interval_cases d <;> decide

theorem natToKeyAux_ne_nil (n : Nat) (acc : List Char) :
    natToKeyAux n acc ≠ [] := by
  rw [natToKeyAux]
  split
  · simp
  · exact natToKeyAux_ne_nil (n / 10) _
termination_by n
decreasing_by exact Nat.div_lt_self (by omega) (by omega)

theorem keyToNatAux_natToKeyAux (n : Nat) :
    ∀ acc v, keyToNatAux (natToKeyAux n acc) v =
      keyToNatAux acc (v * 10 ^ numDigits n + n) := by
  induction n using Nat.strong_induction_on with
  | _ n ih =>
    intro acc v
    by_cases h : n < 10
    · rw [natToKeyAux, numDigits]
      simp only [h, dif_pos]
      rw [keyToNatAux]
      simp [digitVal_digitChar n h]
    · rw [natToKeyAux, numDigits]
      simp only [h, dif_neg, not_false_iff]
      rw [ih (n / 10) (Nat.div_lt_self (by omega) (by omega))]
      rw [keyToNatAux]
      simp only [digitVal_digitChar (n % 10) (Nat.mod_lt n (by omega))]
      have hpow : (10 : Nat) ^ (numDigits (n / 10) + 1) =
          10 ^ numDigits (n / 10) * 10 := pow_succ 10 _
      rw [hpow]
      congr 1
      generalize (10 : Nat) ^ numDigits (n / 10) = k
      rw [show v * (k * 10) = v * k * 10 by ring]
      generalize v * k = m
      omega

theorem keyToNat?_natToKey (n : Nat) : keyToNat? (natToKey n) = some n := by
  obtain ⟨c, cs, heq⟩ : ∃ c cs, natToKeyAux n [] = c :: cs := by
    cases h : natToKeyAux n [] with
    | nil => exact absurd h (natToKeyAux_ne_nil n [])
    | cons c cs => exact ⟨c, cs, rfl⟩
  rw [natToKey, heq]
  have hstep : keyToNat? (String.mk (c :: cs)) = keyToNatAux (c :: cs) 0 := rfl
  rw [hstep, ← heq, keyToNatAux_natToKeyAux]
  simp [keyToNatAux]

/-- Modelled from the spec: `QuestionAnswer` lives in `game.rs`, which is
not among the available sources.  Per the spec it is "a participant's
submitted choice", modelled as the index of the chosen answer option. -/
structure QuestionAnswer where
  answer : Nat
deriving DecidableEq

/-- Modelled from the spec: `BasicConfig` lives in `game.rs`.  Per the
spec it is "immutable per-game metadata (title, question count, etc.)". -/
structure BasicConfig where
  title : String
  questionCount : Nat
deriving DecidableEq

/-- Modelled from the spec: `GameTiming` lives in `game.rs`.  Per the
spec it holds "immutable durations governing each phase (countdown
length, per-question answer window, reveal display length)", modelled in
milliseconds. -/
structure GameTiming where
  countdown : Nat
  answerWindow : Nat
  reveal : Nat
deriving DecidableEq

/-- Modelled from the spec: `GameState` lives in `game.rs`.  Per the spec
it is "a closed set of phases — Lobby, Starting (countdown before first
question), Question(index, deadline), Reveal(index), Finished". -/
inductive GameState where
  | lobby : GameState
  | starting : GameState
  | question (index : Nat) (deadline : Nat) : GameState
  | reveal (index : Nat) : GameState
  | finished : GameState
deriving DecidableEq

/-- Modelled from the spec: the wire `Question` lives in `game.rs`.  Per
the spec it "holds prompt and answer options (server never leaks the
correct answer before Reveal)". -/
structure Question where
  text : String
  options : List String
deriving DecidableEq

/-- Modelled from the spec: `AnswerResult` lives in `game.rs`.  Per the
spec it "records correctness and a score delta". -/
structure AnswerResult where
  correct : Bool
  score : Nat
deriving DecidableEq

/-- Modelled from the spec: `ServerError` lives in `error.rs`.  Per the
spec's error taxonomy the connection-surfaced errors are
MalformedMessage, UnknownToken, NotInLobby, NotYourTurn and NotHost. -/
inductive ServerError where
  | malformedMessage : ServerError
  | unknownToken : ServerError
  | notInLobby : ServerError
  | notYourTurn : ServerError
  | notHost : ServerError
deriving DecidableEq

/-- `pub type SessionId = u32` from `session.rs`; ids are only compared,
never arithmetically combined, so they are modelled as `Nat`. -/
abbrev SessionId := Nat

/-- Modelled from the spec: `GameId` lives in `game.rs`; an opaque
identifier of one game instance. -/
abbrev GameId := Nat

/-- `ClientMessage` from `session.rs`: messages received from the client,
a `serde` enum internally tagged with the `"ty"` field. -/
inductive ClientMessage where
  | tryConnect (token : String) (username : String) : ClientMessage
  | ready : ClientMessage
  | start : ClientMessage
  | cancel : ClientMessage
  | answer (a : QuestionAnswer) : ClientMessage
deriving DecidableEq

/-- `ServerMessage` from `session.rs`: messages sent by the server, a
`serde` enum internally tagged with the `"ty"` field.  The
`HashMap<SessionId, u32>` of scores is modelled as an association list
in the serializer's iteration order. -/
inductive ServerMessage where
  | connected (id : SessionId) (token : String) (basic : BasicConfig)
      (timing : GameTiming) : ServerMessage
  | otherPlayer (id : SessionId) (name : String) : ServerMessage
  | gameState (state : GameState) : ServerMessage
  | timeSync (total : Nat) (elapsed : Nat) : ServerMessage
  | question (q : Question) : ServerMessage
  | answerResult (r : AnswerResult) : ServerMessage
  | beginQuestion : ServerMessage
  | scoreUpdate (scores : List (SessionId × Nat)) : ServerMessage
deriving DecidableEq

/-- Field list of the JSON form of a `QuestionAnswer` (modelled from the
spec, see `QuestionAnswer`). -/
def encodeQuestionAnswerFields (a : QuestionAnswer) : List (String × Json) :=
  [("answer", Json.num a.answer)]

/-- Decode a `QuestionAnswer` from an object's field list, ignoring
unknown fields as `serde` does. -/
def decodeQuestionAnswer (fields : List (String × Json)) : Option QuestionAnswer :=
  match getField fields "answer" with
  | some (Json.num n) => some ⟨n⟩
  | _ => none

/-- JSON form of a `BasicConfig` (modelled from the spec). -/
def encodeBasicConfig (b : BasicConfig) : Json :=
  Json.obj [("title", Json.str b.title), ("question_count", Json.num b.questionCount)]

/-- Decode a `BasicConfig` from a JSON value (modelled from the spec). -/
def decodeBasicConfig : Json → Option BasicConfig
  | Json.obj fields =>
    match getField fields "title", getField fields "question_count" with
    | some (Json.str title), some (Json.num count) => some ⟨title, count⟩
    | _, _ => none
  | _ => none

/-- JSON form of a `GameTiming` (modelled from the spec). -/
def encodeGameTiming (t : GameTiming) : Json :=
  Json.obj [("countdown", Json.num t.countdown),
    ("answer_window", Json.num t.answerWindow),
    ("reveal", Json.num t.reveal)]

/-- Decode a `GameTiming` from a JSON value (modelled from the spec). -/
def decodeGameTiming : Json → Option GameTiming
  | Json.obj fields =>
    match getField fields "countdown", getField fields "answer_window",
        getField fields "reveal" with
    | some (Json.num c), some (Json.num w), some (Json.num r) => some ⟨c, w, r⟩
    | _, _, _ => none
  | _ => none

/-- Field list of the JSON form of a `GameState` (modelled from the spec);
a map shape so that the internally tagged `ServerMessage::GameState`
newtype variant can inline it next to its own `"ty"` tag. -/
def encodeGameStateFields : GameState → List (String × Json)
  | GameState.lobby => [("state", Json.str "Lobby")]
  | GameState.starting => [("state", Json.str "Starting")]
  | GameState.question index deadline =>
    [("state", Json.str "Question"), ("index", Json.num index),
      ("deadline", Json.num deadline)]
  | GameState.reveal index =>
    [("state", Json.str "Reveal"), ("index", Json.num index)]
  | GameState.finished => [("state", Json.str "Finished")]

/-- Decode a `GameState` from an object's field list (modelled from the
spec). -/
def decodeGameState (fields : List (String × Json)) : Option GameState :=
  match getField fields "state" with
  | some (Json.str tag) =>
    if tag = "Lobby" then some GameState.lobby
    else if tag = "Starting" then some GameState.starting
    else if tag = "Question" then
      match getField fields "index", getField fields "deadline" with
      | some (Json.num i), some (Json.num d) => some (GameState.question i d)
      | _, _ => none
    else if tag = "Reveal" then
      match getField fields "index" with
      | some (Json.num i) => some (GameState.reveal i)
      | _ => none
    else if tag = "Finished" then some GameState.finished
    else none
  | _ => none

/-- Field list of the JSON form of a wire `Question` (modelled from the
spec). -/
def encodeQuestionFields (q : Question) : List (String × Json) :=
  [("text", Json.str q.text), ("options", Json.arr (q.options.map Json.str))]

/-- Decode the items of a JSON array of strings. -/
def decodeStringList : List Json → Option (List String)
  | [] => some []
  | Json.str s :: rest =>
    match decodeStringList rest with
    | some tail => some (s :: tail)
    | none => none
  | _ => none

/-- Decode a wire `Question` from an object's field list (modelled from
the spec). -/
def decodeQuestion (fields : List (String × Json)) : Option Question :=
  match getField fields "text", getField fields "options" with
  | some (Json.str text), some (Json.arr items) =>
    match decodeStringList items with
    | some options => some ⟨text, options⟩
    | none => none
  | _, _ => none

/-- Field list of the JSON form of an `AnswerResult` (modelled from the
spec). -/
def encodeAnswerResultFields (r : AnswerResult) : List (String × Json) :=
  [("correct", Json.bool r.correct), ("score", Json.num r.score)]

/-- Decode an `AnswerResult` from an object's field list (modelled from
the spec). -/
def decodeAnswerResult (fields : List (String × Json)) : Option AnswerResult :=
  match getField fields "correct", getField fields "score" with
  | some (Json.bool c), some (Json.num s) => some ⟨c, s⟩
  | _, _ => none

/-- JSON form of the scores map: `serde_json` renders a
`HashMap<SessionId, u32>` as an object whose keys are the decimal
renderings of the ids. -/
def encodeScores (scores : List (SessionId × Nat)) : Json :=
  Json.obj (scores.map fun p => (natToKey p.1, Json.num p.2))

/-- Decode the scores map back from its JSON object fields. -/
def decodeScores : List (String × Json) → Option (List (SessionId × Nat))
  | [] => some []
  | (k, Json.num v) :: rest =>
    match keyToNat? k with
    | some id =>
      match decodeScores rest with
      | some tail => some ((id, v) :: tail)
      | none => none
    | none => none
  | _ => none

/-- JSON form of a `ClientMessage`.  Modelled from the spec: `session.rs`
derives only `Deserialize` for `ClientMessage`; this is the inverse
encoding implied by the spec's round-trip contract, internally tagged
with `"ty"` exactly as the derived `Deserialize` expects. -/
def encodeClientMessage : ClientMessage → Json
  | ClientMessage.tryConnect token username =>
    Json.obj [("ty", Json.str "TryConnect"), ("token", Json.str token),
      ("username", Json.str username)]
  | ClientMessage.ready => Json.obj [("ty", Json.str "Ready")]
  | ClientMessage.start => Json.obj [("ty", Json.str "Start")]
  | ClientMessage.cancel => Json.obj [("ty", Json.str "Cancel")]
  | ClientMessage.answer a =>
    Json.obj (("ty", Json.str "Answer") :: encodeQuestionAnswerFields a)

/-- Decoding of a `ClientMessage` from a JSON value: the model of the
`serde` `Deserialize` derive on `ClientMessage` (`#[serde(tag = "ty")]`):
the `"ty"` field selects the variant, unknown fields are ignored, the
`Answer` newtype variant reads the `QuestionAnswer` from the remaining
content. -/
def decodeClientMessage : Json → Option ClientMessage
  | Json.obj fields =>
    match getField fields "ty" with
    | some (Json.str tag) =>
      if tag = "TryConnect" then
        match getField fields "token", getField fields "username" with
        | some (Json.str token), some (Json.str username) =>
          some (ClientMessage.tryConnect token username)
        | _, _ => none
      else if tag = "Ready" then some ClientMessage.ready
      else if tag = "Start" then some ClientMessage.start
      else if tag = "Cancel" then some ClientMessage.cancel
      else if tag = "Answer" then
        match decodeQuestionAnswer fields with
        | some a => some (ClientMessage.answer a)
        | none => none
      else none
    | _ => none
  | _ => none

/-- JSON form of a `ServerMessage`: the model of the `serde` `Serialize`
derive on `ServerMessage` (`#[serde(tag = "ty")]`): struct variants emit
their fields next to the `"ty"` tag, newtype variants inline the field
map of their content next to the tag, the unit variant emits only the
tag. -/
def encodeServerMessage : ServerMessage → Json
  | ServerMessage.connected id token basic timing =>
    Json.obj [("ty", Json.str "Connected"), ("id", Json.num id),
      ("token", Json.str token), ("basic", encodeBasicConfig basic),
      ("timing", encodeGameTiming timing)]
  | ServerMessage.otherPlayer id name =>
    Json.obj [("ty", Json.str "OtherPlayer"), ("id", Json.num id),
      ("name", Json.str name)]
  | ServerMessage.gameState state =>
    Json.obj (("ty", Json.str "GameState") :: encodeGameStateFields state)
  | ServerMessage.timeSync total elapsed =>
    Json.obj [("ty", Json.str "TimeSync"), ("total", Json.num total),
      ("elapsed", Json.num elapsed)]
  | ServerMessage.question q =>
    Json.obj (("ty", Json.str "Question") :: encodeQuestionFields q)
  | ServerMessage.answerResult r =>
    Json.obj (("ty", Json.str "AnswerResult") :: encodeAnswerResultFields r)
  | ServerMessage.beginQuestion => Json.obj [("ty", Json.str "BeginQuestion")]
  | ServerMessage.scoreUpdate scores =>
    Json.obj [("ty", Json.str "ScoreUpdate"), ("scores", encodeScores scores)]

/-- Decoding of a `ServerMessage` from a JSON value.  Modelled from the
spec: `session.rs` derives only `Serialize` for `ServerMessage`; this is
the inverse implied by the spec's round-trip contract, mirroring the
tagged encoding. -/
def decodeServerMessage : Json → Option ServerMessage
  | Json.obj fields =>
    match getField fields "ty" with
    | some (Json.str tag) =>
      if tag = "Connected" then
        match getField fields "id", getField fields "token",
            getField fields "basic", getField fields "timing" with
        | some (Json.num id), some (Json.str token), some basicJson,
            some timingJson =>
          match decodeBasicConfig basicJson, decodeGameTiming timingJson with
          | some basic, some timing =>
            some (ServerMessage.connected id token basic timing)
          | _, _ => none
        | _, _, _, _ => none
      else if tag = "OtherPlayer" then
        match getField fields "id", getField fields "name" with
        | some (Json.num id), some (Json.str name) =>
          some (ServerMessage.otherPlayer id name)
        | _, _ => none
      else if tag = "GameState" then
        match decodeGameState fields with
        | some state => some (ServerMessage.gameState state)
        | none => none
      else if tag = "TimeSync" then
        match getField fields "total", getField fields "elapsed" with
        | some (Json.num total), some (Json.num elapsed) =>
          some (ServerMessage.timeSync total elapsed)
        | _, _ => none
      else if tag = "Question" then
        match decodeQuestion fields with
        | some q => some (ServerMessage.question q)
        | none => none
      else if tag = "AnswerResult" then
        match decodeAnswerResult fields with
        | some r => some (ServerMessage.answerResult r)
        | none => none
      else if tag = "BeginQuestion" then some ServerMessage.beginQuestion
      else if tag = "ScoreUpdate" then
        match getField fields "scores" with
        | some (Json.obj kvs) =>
          match decodeScores kvs with
          | some scores => some (ServerMessage.scoreUpdate scores)
          | none => none
        | _ => none
      else none
    | _ => none
  | _ => none

/-- JSON form of a `ServerError` (modelled from the spec, see
`ServerError`): a tagged error object. -/
def encodeServerError : ServerError → Json
  | ServerError.malformedMessage =>
    Json.obj [("ty", Json.str "Error"), ("error", Json.str "MalformedMessage")]
  | ServerError.unknownToken =>
    Json.obj [("ty", Json.str "Error"), ("error", Json.str "UnknownToken")]
  | ServerError.notInLobby =>
    Json.obj [("ty", Json.str "Error"), ("error", Json.str "NotInLobby")]
  | ServerError.notYourTurn =>
    Json.obj [("ty", Json.str "Error"), ("error", Json.str "NotYourTurn")]
  | ServerError.notHost =>
    Json.obj [("ty", Json.str "Error"), ("error", Json.str "NotHost")]

/-- `SessionGame` from `session.rs`: the id of the joined game and the
address of its `Game` actor (the address is opaque; modelled as a
number). -/
structure SessionGame where
  id : GameId
  addr : Nat
deriving DecidableEq

/-- `Session` from `session.rs`: the per-connection actor state — the
session's id and the game it is part of, if any. -/
structure Session where
  id : SessionId
  game : Option SessionGame
deriving DecidableEq

/-- The observable effects a `ws::WebsocketContext<Session>` accumulates
while one or more stream items are handled: outbound text frames
(`ctx.text`), outbound pong control frames (`ctx.pong`), whether
`ctx.stop` was called, and counters for the side calls the session code
can make (spawned tasks, Game Directory lookups, `Admit` requests). -/
structure Ctx where
  outFrames : List Json
  pongs : List (List Nat)
  stopped : Bool
  spawnedTasks : Nat
  directoryLookups : Nat
  admitCalls : Nat

/-- The context of a fresh connection: nothing sent, not stopped, no side
calls issued. -/
def ctx0 : Ctx :=
  { outFrames := [], pongs := [], stopped := false, spawnedTasks := 0,
    directoryLookups := 0, admitCalls := 0 }

/-- `Session::write_message`: serialize the message and send it as one
text frame; if serialization fails, log and send nothing. -/
def write_message (ser : α → Option Json) (ctx : Ctx) (msg : α) : Ctx :=
  match ser msg with
  | some value => { ctx with outFrames := ctx.outFrames ++ [value] }
  | none => ctx

/-- `serde_json::to_string` on a `ServerMessage`; total on the modelled
message shapes. -/
def serServerMessage (m : ServerMessage) : Option Json :=
  some (encodeServerMessage m)

/-- `serde_json::to_string` on a `ServerError`; total on the modelled
error shapes. -/
def serServerError (e : ServerError) : Option Json :=
  some (encodeServerError e)

/-- Outcome of one handler invocation: either the updated session and
context, or a panic (the `todo!()` macro unwinding). -/
inductive StepResult where
  | ok (s : Session) (ctx : Ctx) : StepResult
  | panicked (msg : String) : StepResult

/-- `Session::try_connect` as written in `session.rs`: it takes the
session's own address and spawns an empty async task
(`tokio::spawn(async move \x7b\x7d)`); it performs no Directory lookup,
no `Admit` call and writes nothing to the connection. -/
def try_connect (ctx : Ctx) (token : String) (username : String) : Ctx :=
  { ctx with spawnedTasks := ctx.spawnedTasks + 1 }

/-- `Session::handle_message` from `session.rs`: `TryConnect` goes to
`try_connect`; `Ready` and the catch-all arm (`Start`, `Cancel`,
`Answer`) are `todo!()`, which panics. -/
def handle_message (s : Session) (ctx : Ctx) (message : ClientMessage) : StepResult :=
  match message with
  | ClientMessage.tryConnect token username =>
    StepResult.ok s (try_connect ctx token username)
  | ClientMessage.ready => StepResult.panicked "not yet implemented"
  | _ => StepResult.panicked "not yet implemented"

/-- An opaque `ws::ProtocolError` delivered to the stream handler. -/
structure ProtocolError where
  description : String
deriving DecidableEq

/-- The `ws::Message` frames a websocket stream can deliver. -/
inductive WsMessage where
  | text (value : Json) : WsMessage
  | binary (data : List Nat) : WsMessage
  | continuation : WsMessage
  | ping (data : List Nat) : WsMessage
  | pong (data : List Nat) : WsMessage
  | close (reason : Option String) : WsMessage
  | nop : WsMessage

/-- The `StreamHandler` implementation for `Session` from `session.rs`:
an `Err` item is logged and dropped; a `Text` frame is decoded as a
`ClientMessage` (on failure one `MalformedMessage` error is written
back); a `Pong` frame is answered with a pong; a `Close` frame stops the
context; every other frame is dropped.  The text payload is modelled as
the JSON value it parses to, decoding being `decodeClientMessage`. -/
def stream_handle (s : Session) (ctx : Ctx)
    (item : Except ProtocolError WsMessage) : StepResult :=
  match item with
  | Except.error _ => StepResult.ok s ctx
  | Except.ok message =>
    match message with
    | WsMessage.text value =>
      match decodeClientMessage value with
      | some m => handle_message s ctx m
      | none =>
        StepResult.ok s (write_message serServerError ctx ServerError.malformedMessage)
    | WsMessage.pong p => StepResult.ok s { ctx with pongs := ctx.pongs ++ [p] }
    | WsMessage.close _ => StepResult.ok s { ctx with stopped := true }
    | _ => StepResult.ok s ctx

/-- The actor's stream-processing loop: items are handled in order; once
the context has been stopped no further item is handled, and a panic
ends processing. -/
def run_session (s : Session) (ctx : Ctx) :
    List (Except ProtocolError WsMessage) → StepResult
  | [] => StepResult.ok s ctx
  | item :: rest =>
    if ctx.stopped then StepResult.ok s ctx
    else
      match stream_handle s ctx item with
      | StepResult.ok s2 ctx2 => run_session s2 ctx2 rest
      | StepResult.panicked msg => StepResult.panicked msg

/-- `SessionRequest` from `session.rs`: a request to forward a server
message or an error to this session's client. -/
inductive SessionRequest where
  | message (m : ServerMessage) : SessionRequest
  | error (e : ServerError) : SessionRequest

/-- `SessionResponse` from `session.rs`. -/
inductive SessionResponse where
  | none : SessionResponse
deriving DecidableEq

/-- The `Handler<SessionRequest>` implementation for `Session` from
`session.rs`: write the carried message or error to the connection and
return `SessionResponse::None`; the session's own fields are untouched. -/
def handleSessionRequest (s : Session) (ctx : Ctx) (msg : SessionRequest) :
    Session × Ctx × SessionResponse :=
  match msg with
  | SessionRequest.message m => (s, write_message serServerMessage ctx m, SessionResponse.none)
  | SessionRequest.error e => (s, write_message serServerError ctx e, SessionResponse.none)

/-- Modelled from the spec: an answer stored by the Game Coordinator
(`game.rs` is not among the available sources) — the question index, the
submitted choice and its receipt timestamp, "accepted at most once per
participant per question index". -/
structure StoredAnswer where
  index : Nat
  answer : QuestionAnswer
  receivedAt : Nat
deriving DecidableEq

/-- Modelled from the spec: a Participant record held inside the Game
Coordinator — SessionId, display name, cumulative score and per-question
answer state. -/
structure PlayerRecord where
  id : SessionId
  name : String
  score : Nat
  answers : List StoredAnswer
deriving DecidableEq

/-- Modelled from the spec: the Game Coordinator's authoritative state —
the game's token, current phase, participant roster, question bank with
answer keys and the phase timing configuration. -/
structure GameModel where
  token : String
  state : GameState
  players : List PlayerRecord
  questions : List Question
  answerKeys : List Nat
  timing : GameTiming
deriving DecidableEq

/-- Modelled from the spec: record one participant's answer for the given
question index — "accepted at most once per participant per question
index; later submissions for the same index are ignored". -/
def recordAnswer (p : PlayerRecord) (idx : Nat) (a : QuestionAnswer)
    (now : Nat) : PlayerRecord :=
  if p.answers.any (fun e => e.index == idx) then p
  else { p with answers := p.answers ++ [⟨idx, a, now⟩] }

/-- Modelled from the spec: `SubmitAnswer(SessionId, QuestionAnswer)` —
"valid only while GameState is Question(index, deadline) and only once
per SessionId per index; stores the answer with its receipt timestamp.
Out-of-phase or duplicate submissions are silently ignored". -/
def submitAnswer (g : GameModel) (sid : SessionId) (a : QuestionAnswer)
    (now : Nat) : GameModel :=
  match g.state with
  | GameState.question idx _ =>
    { g with players := g.players.map fun p =>
        if p.id == sid then recordAnswer p idx a now else p }
  | _ => g

/-- Modelled from the spec: the score delta a participant earns for one
question — zero for no answer or a wrong answer, a base amount plus a
speed bonus that decreases with later receipt for a correct one. -/
def scoreDelta (key : Option Nat) (deadline : Nat)
    (entry : Option StoredAnswer) : Nat :=
  match entry with
  | none => 0
  | some e => if some e.answer.answer = key then 100 + (deadline - e.receivedAt) else 0

/-- The answer a participant stored for a question index, if any. -/
def answerEntry (p : PlayerRecord) (idx : Nat) : Option StoredAnswer :=
  p.answers.find? (fun e => e.index == idx)

/-- Modelled from the spec: ending the `Question` phase (timer expiry or
all-answered) — every participant's `AnswerResult` is computed against
the question's answer key and added to the cumulative score, and the
phase advances to `Reveal(index)`. -/
def endQuestion (g : GameModel) : GameModel :=
  match g.state with
  | GameState.question idx deadline =>
    { g with state := GameState.reveal idx,
             players := g.players.map fun p =>
               { p with score := p.score +
                   scoreDelta (g.answerKeys.get? idx) deadline (answerEntry p idx) } }
  | _ => g

/-- Modelled from the spec: the `ScoreUpdate{scores}` broadcast — "a
snapshot mapping SessionId to cumulative score, visible to all". -/
def scoreUpdateMsg (g : GameModel) : ServerMessage :=
  ServerMessage.scoreUpdate (g.players.map fun p => (p.id, p.score))

/-- A concrete one-player game in the `Question(0)` phase, used to
exercise the modelled Coordinator operations on explicit input. -/
def g0 : GameModel :=
  { token := "W2133", state := GameState.question 0 100,
    players := [{ id := 1, name := "alice", score := 0, answers := [] }],
    questions := [{ text := "q", options := ["a", "b"] }],
    answerKeys := [0],
    timing := { countdown := 3000, answerWindow := 10000, reveal := 5000 } }

theorem decodeStringList_map (l : List String) :
    decodeStringList (l.map Json.str) = some l := by
  induction l with
  | nil => rfl
  | cons s rest ih => simp [decodeStringList, ih]

theorem decodeScores_encodeScores (scores : List (SessionId × Nat)) :
    decodeScores (scores.map fun p => (natToKey p.1, Json.num p.2)) = some scores := by
  induction scores with
  | nil => rfl
  | cons p rest ih => simp [decodeScores, keyToNat?_natToKey, ih]

theorem decode_encode_client (m : ClientMessage) :
    decodeClientMessage (encodeClientMessage m) = some m := by
  cases m <;> rfl

theorem decode_encode_server (m : ServerMessage) :
    decodeServerMessage (encodeServerMessage m) = some m := by
  cases m with
  | connected id token basic timing => rfl
  | otherPlayer id name => rfl
  | gameState st => cases st <;> rfl
  | timeSync total elapsed => rfl
  | question q =>
    simp [encodeServerMessage, decodeServerMessage, encodeQuestionFields,
      decodeQuestion, getField, decodeStringList_map]
  | answerResult r => rfl
  | beginQuestion => rfl
  | scoreUpdate scores =>
    simp [encodeServerMessage, decodeServerMessage, encodeScores, getField,
      decodeScores_encodeScores]

theorem recordAnswer_id (p : PlayerRecord) (idx : Nat) (a : QuestionAnswer)
    (t : Nat) : (recordAnswer p idx a t).id = p.id := by
  rw [recordAnswer]
  split <;> rfl

theorem recordAnswer_hasAnswer (p : PlayerRecord) (idx : Nat)
    (a : QuestionAnswer) (t : Nat) :
    (recordAnswer p idx a t).answers.any (fun e => e.index == idx) = true := by
  rw [recordAnswer]
  by_cases h : p.answers.any (fun e => e.index == idx)
  · simp [h]
  · simp [h, List.any_append]

theorem recordAnswer_twice (p : PlayerRecord) (idx : Nat)
    (a1 a2 : QuestionAnswer) (t1 t2 : Nat) :
    recordAnswer (recordAnswer p idx a1 t1) idx a2 t2 = recordAnswer p idx a1 t1 := by
  have h := recordAnswer_hasAnswer p idx a1 t1
  rw [recordAnswer]
  simp [h]

theorem submit_map_twice (sid : SessionId) (idx : Nat) (a1 a2 : QuestionAnswer)
    (t1 t2 : Nat) (ps : List PlayerRecord) :
    (ps.map fun p => if p.id == sid then recordAnswer p idx a1 t1 else p).map
      (fun p => if p.id == sid then recordAnswer p idx a2 t2 else p) =
    ps.map fun p => if p.id == sid then recordAnswer p idx a1 t1 else p := by
  induction ps with
  | nil => rfl
  | cons p rest ih =>
    simp only [List.map_cons, ih]
    congr 1
    by_cases h : p.id == sid
    · simp [h, recordAnswer_id, recordAnswer_twice]
    · simp [h]

theorem run_session_stopped (s : Session) (ctx : Ctx) (h : ctx.stopped = true) :
    ∀ items, run_session s ctx items = StepResult.ok s ctx := by
  intro items
  cases items with
  | nil => rfl
  | cons item rest => simp [run_session, h]

/-- Claim C1 (code divergence): a Session whose `game` field is `None`
that receives `Ready`, `Start`, `Cancel` or `Answer` is not sent an
error reply — `handle_message` reaches `todo!()` and panics for each of
these messages. -/
theorem c1_non_connect_messages_panic :
    handle_message ⟨0, none⟩ ctx0 ClientMessage.ready =
      StepResult.panicked "not yet implemented" ∧
    handle_message ⟨0, none⟩ ctx0 ClientMessage.start =
      StepResult.panicked "not yet implemented" ∧
    handle_message ⟨0, none⟩ ctx0 ClientMessage.cancel =
      StepResult.panicked "not yet implemented" ∧
    handle_message ⟨0, none⟩ ctx0 (ClientMessage.answer ⟨0⟩) =
      StepResult.panicked "not yet implemented" :=
  ⟨rfl, rfl, rfl, rfl⟩

/-- Claim C2: a text frame whose payload does not decode as a
`ClientMessage` makes the stream handler send exactly one
`MalformedMessage` error reply on its own connection and leave the
session state and every other context effect unchanged. -/
theorem c2_malformed_payload_single_error_reply (s : Session) (ctx : Ctx)
    (j : Json) (h : decodeClientMessage j = none) :
    stream_handle s ctx (Except.ok (WsMessage.text j)) =
      StepResult.ok s { ctx with outFrames :=
        ctx.outFrames ++ [encodeServerError ServerError.malformedMessage] } := by
  simp [stream_handle, h, write_message, serServerError]

theorem c2_witness :
    decodeClientMessage (Json.str "oops") = none ∧
    stream_handle ⟨0, none⟩ ctx0 (Except.ok (WsMessage.text (Json.str "oops"))) =
      StepResult.ok ⟨0, none⟩ { ctx0 with outFrames :=
        [encodeServerError ServerError.malformedMessage] } :=
  ⟨rfl, c2_malformed_payload_single_error_reply ⟨0, none⟩ ctx0 (Json.str "oops") rfl⟩

/-- Claim C3 (code divergence): on a `TryConnect`, `try_connect` spawns
an empty task and returns — it performs no Directory lookup, issues no
`Admit` request and writes no reply at all, not even an error, to the
connection. -/
theorem c3_try_connect_is_inert :
    handle_message ⟨0, none⟩ ctx0 (ClientMessage.tryConnect "W2133" "alice") =
      StepResult.ok ⟨0, none⟩ { ctx0 with spawnedTasks := 1 } :=
  rfl

/-- Claim C4 (code divergence): the frame `\x7b"ty":"Start"\x7d` decodes
as the perfectly well-formed `ClientMessage::Start`, yet handling it
panics via `todo!()` instead of at worst terminating the connection. -/
theorem c4_frame_handler_panics_on_decodable_message :
    decodeClientMessage (Json.obj [("ty", Json.str "Start")]) =
      some ClientMessage.start ∧
    stream_handle ⟨0, none⟩ ctx0
        (Except.ok (WsMessage.text (Json.obj [("ty", Json.str "Start")]))) =
      StepResult.panicked "not yet implemented" :=
  ⟨rfl, rfl⟩

/-- Claim C5: a `Close` frame stops the session's context without any
other effect, and no later inbound frame is handled by the stopped
session. -/
theorem c5_close_frame_stops_session (s : Session) (ctx : Ctx)
    (reason : Option String) (rest : List (Except ProtocolError WsMessage))
    (h : ctx.stopped = false) :
    stream_handle s ctx (Except.ok (WsMessage.close reason)) =
      StepResult.ok s { ctx with stopped := true } ∧
    run_session s ctx (Except.ok (WsMessage.close reason) :: rest) =
      StepResult.ok s { ctx with stopped := true } := by
  refine ⟨rfl, ?_⟩
  rw [run_session]
  simp only [h, Bool.false_eq_true, if_false, stream_handle]
  exact run_session_stopped s { ctx with stopped := true } rfl rest

theorem c5_witness :
    ctx0.stopped = false ∧
    (stream_handle ⟨0, none⟩ ctx0 (Except.ok (WsMessage.close none)) =
      StepResult.ok ⟨0, none⟩ { ctx0 with stopped := true } ∧
    run_session ⟨0, none⟩ ctx0
        (Except.ok (WsMessage.close none) ::
          [Except.ok (WsMessage.text (Json.str "late"))]) =
      StepResult.ok ⟨0, none⟩ { ctx0 with stopped := true }) :=
  ⟨rfl, c5_close_frame_stops_session ⟨0, none⟩ ctx0 none
    [Except.ok (WsMessage.text (Json.str "late"))] rfl⟩

/-- Claim C6 (code divergence): a `Ping` frame falls into the stream
handler's catch-all arm and is dropped without a `Pong` answer, while a
received `Pong` frame is (nonsensically) answered with a pong — the
handler's `Pong` arm is the slipped `Ping` arm. -/
theorem c6_ping_ignored_pong_echoed :
    stream_handle ⟨0, none⟩ ctx0 (Except.ok (WsMessage.ping [1, 2])) =
      StepResult.ok ⟨0, none⟩ ctx0 ∧
    stream_handle ⟨0, none⟩ ctx0 (Except.ok (WsMessage.pong [1, 2])) =
      StepResult.ok ⟨0, none⟩ { ctx0 with pongs := [[1, 2]] } :=
  ⟨rfl, rfl⟩

/-- Claim C7: every `ClientMessage` and every `ServerMessage` value
round-trips through its tagged JSON form back to an equal value. -/
theorem c7_message_protocol_round_trip :
    (∀ m : ClientMessage, decodeClientMessage (encodeClientMessage m) = some m) ∧
    (∀ m : ServerMessage, decodeServerMessage (encodeServerMessage m) = some m) :=
  ⟨decode_encode_client, decode_encode_server⟩

/-- Claim C8: while the game is in the `Question(idx)` phase, a second
`Answer` submission by the same participant for that index is a no-op on
the Coordinator state, so the `ScoreUpdate` computed when the question
ends is unchanged by it (duplicates are silently ignored, not errors). -/
theorem c8_duplicate_answer_ignored (g : GameModel) (sid : SessionId)
    (idx deadline : Nat) (a1 a2 : QuestionAnswer) (t1 t2 : Nat)
    (hphase : g.state = GameState.question idx deadline) :
    submitAnswer (submitAnswer g sid a1 t1) sid a2 t2 =
      submitAnswer g sid a1 t1 ∧
    scoreUpdateMsg (endQuestion (submitAnswer (submitAnswer g sid a1 t1) sid a2 t2)) =
      scoreUpdateMsg (endQuestion (submitAnswer g sid a1 t1)) := by
  cases g with
  | mk tok st ps qs ks tm =>
    have hst : st = GameState.question idx deadline := hphase
    subst hst
    have key : submitAnswer
        (submitAnswer ⟨tok, GameState.question idx deadline, ps, qs, ks, tm⟩ sid a1 t1)
        sid a2 t2 =
        submitAnswer ⟨tok, GameState.question idx deadline, ps, qs, ks, tm⟩ sid a1 t1 := by
      simp only [submitAnswer]
      rw [submit_map_twice]
    exact ⟨key, by rw [key]⟩

theorem c8_witness :
    g0.state = GameState.question 0 100 ∧
    (submitAnswer (submitAnswer g0 1 ⟨0⟩ 5) 1 ⟨1⟩ 7 = submitAnswer g0 1 ⟨0⟩ 5 ∧
    scoreUpdateMsg (endQuestion (submitAnswer (submitAnswer g0 1 ⟨0⟩ 5) 1 ⟨1⟩ 7)) =
      scoreUpdateMsg (endQuestion (submitAnswer g0 1 ⟨0⟩ 5))) :=
  ⟨rfl, c8_duplicate_answer_ignored g0 1 0 100 ⟨0⟩ ⟨1⟩ 5 7 rfl⟩

/-- Claim C9: a websocket protocol error delivered to the stream handler
is logged and dropped — no reply, no stop, no session change — and the
following frames are processed as if it had not occurred. -/
theorem c9_protocol_error_logged_and_ignored (s : Session) (ctx : Ctx)
    (e : ProtocolError) (rest : List (Except ProtocolError WsMessage))
    (h : ctx.stopped = false) :
    stream_handle s ctx (Except.error e) = StepResult.ok s ctx ∧
    run_session s ctx (Except.error e :: rest) = run_session s ctx rest := by
  refine ⟨rfl, ?_⟩
  rw [run_session]
  simp only [h, Bool.false_eq_true, if_false, stream_handle]

theorem c9_witness :
    ctx0.stopped = false ∧
    (stream_handle ⟨0, none⟩ ctx0 (Except.error ⟨"bad frame"⟩) =
      StepResult.ok ⟨0, none⟩ ctx0 ∧
    run_session ⟨0, none⟩ ctx0
        (Except.error ⟨"bad frame"⟩ :: [Except.ok (WsMessage.close none)]) =
      run_session ⟨0, none⟩ ctx0 [Except.ok (WsMessage.close none)]) :=
  ⟨rfl, c9_protocol_error_logged_and_ignored ⟨0, none⟩ ctx0 ⟨"bad frame"⟩
    [Except.ok (WsMessage.close none)] rfl⟩

/-- Claim C10: handling any `SessionRequest` returns
`SessionResponse::None`, leaves the session's `id` and `game` fields
unchanged, and its only context effect is appending at most one outbound
text frame. -/
theorem c10_session_request_only_writes_one_frame (s : Session) (ctx : Ctx)
    (msg : SessionRequest) :
    (handleSessionRequest s ctx msg).2.2 = SessionResponse.none ∧
    (handleSessionRequest s ctx msg).1 = s ∧
    (handleSessionRequest s ctx msg).2.1.outFrames.length ≤
      ctx.outFrames.length + 1 ∧
    (handleSessionRequest s ctx msg).2.1.pongs = ctx.pongs ∧
    (handleSessionRequest s ctx msg).2.1.stopped = ctx.stopped ∧
    (handleSessionRequest s ctx msg).2.1.spawnedTasks = ctx.spawnedTasks ∧
    (handleSessionRequest s ctx msg).2.1.directoryLookups = ctx.directoryLookups ∧
    (handleSessionRequest s ctx msg).2.1.admitCalls = ctx.admitCalls := by
  cases msg <;>
    simp [handleSessionRequest, write_message, serServerMessage, serServerError]
